import Mathlib

/-
Verification of the falixnodes keepalive bot against its specification.

The development shallowly embeds the decision logic of
src/scripts/falix-keepalive.js and src/unnamed/part_004 (the server-state
classifier script) in Lean.  JavaScript strings are modelled by String,
JavaScript regular-expression tests over the fixed literal patterns of the
source are modelled by explicit substring / prefix / suffix tests, thrown
exceptions are modelled by an explicit error type, and the asynchronous
race of waitForPostSubmitOutcome is modelled by passing in the channel
that won the race together with the observed final URL.
-/

namespace Falix

/-- charsPrefixOf pat l is true when pat is a prefix of l.  Model of a
character-by-character prefix test used to build the substring test. -/
def charsPrefixOf : List Char → List Char → Bool
  | [], _ => true
  | _ :: _, [] => false
  | a :: as, b :: bs => a == b && charsPrefixOf as bs

/-- charsContains pat l is true when pat occurs as a contiguous sublist of
l.  Model of JavaScript String.prototype.includes on the decoded
characters. -/
def charsContains (pat : List Char) : List Char → Bool
  | [] => charsPrefixOf pat []
  | c :: rest => charsPrefixOf pat (c :: rest) || charsContains pat rest

/-- containsSubstr s pat models the JavaScript expression
s.includes(pat). -/
def containsSubstr (s pat : String) : Bool :=
  charsContains pat.toList s.toList

/-- countChar s c counts the occurrences of the character c in s. -/
def countChar (s : String) (c : Char) : Nat :=
  s.toList.count c

/-- toLowerStr models JavaScript String.prototype.toLowerCase on the
ASCII strings handled by the program (character-wise lowering). -/
def toLowerStr (s : String) : String :=
  String.mk (s.toList.map Char.toLower)

/-- trimChars drops whitespace from both ends of a character list. -/
def trimChars (cs : List Char) : List Char :=
  ((cs.dropWhile Char.isWhitespace).reverse.dropWhile Char.isWhitespace).reverse

/-- trimStr models JavaScript String.prototype.trim. -/
def trimStr (s : String) : String :=
  String.mk (trimChars s.toList)

/-- startsWithStr s pat models the JavaScript test that s starts with
pat (used for the anchored regular expressions of the source). -/
def startsWithStr (s pat : String) : Bool :=
  charsPrefixOf pat.toList s.toList

/-- endsWithStr s pat models the JavaScript test that s ends with pat. -/
def endsWithStr (s pat : String) : Bool :=
  charsPrefixOf pat.toList.reverse s.toList.reverse

/-
Server-State Classifier, from src/unnamed/part_004.

function normalizeWhitespace(value) collapses every run of whitespace to a
single space and trims the ends: value.replace(/\s+/g, " ").trim().
-/

/-- collapseWsAux prevWs cs replaces every maximal run of whitespace
characters in cs by a single space; prevWs records whether the previous
character belonged to a whitespace run.  Model of the replacement step
value.replace of normalizeWhitespace in src/unnamed/part_004. -/
def collapseWsAux : Bool → List Char → List Char
  | _, [] => []
  | prevWs, c :: rest =>
    if c.isWhitespace then
      if prevWs then collapseWsAux true rest
      else ' ' :: collapseWsAux true rest
    else c :: collapseWsAux false rest

/-- normalizeWhitespace, from src/unnamed/part_004: collapse whitespace
runs to single spaces, then trim.  The JavaScript guard returning the
empty string for non-string inputs is vacuous here because the embedding
is typed. -/
def normalizeWhitespace (value : String) : String :=
  trimStr (String.mk (collapseWsAux false value.toList))

/-- uniqueStringsAux values seen walks values, skipping entries whose
normalized form is empty (the source also skips falsy raw values, which
normalize to the empty string anyway) and entries whose lowercased
normalized form already occurred; seen holds the lowercased keys already
emitted.  Loop body of uniqueStrings in src/unnamed/part_004. -/
def uniqueStringsAux : List String → List String → List String
  | [], _ => []
  | v :: rest, seen =>
    let normalized := normalizeWhitespace v
    if normalized = "" then uniqueStringsAux rest seen
    else
      let key := toLowerStr normalized
      if seen.contains key then uniqueStringsAux rest seen
      else normalized :: uniqueStringsAux rest (key :: seen)

/-- uniqueStrings, from src/unnamed/part_004: normalized, case-insensitively
deduplicated candidate strings, first occurrence kept, in order. -/
def uniqueStrings (values : List String) : List String :=
  uniqueStringsAux values []

/-- IndicatorInput models the destructured argument of
determineStatusFromIndicators in src/unnamed/part_004, with the same
defaults as the source destructuring. -/
structure IndicatorInput where
  statusCandidates : List String := []
  buttonTexts : List String := []
  explicitStartButtons : Nat := 0
  explicitStopButtons : Nat := 0
deriving DecidableEq

/-- ServerStatus models the object returned by
determineStatusFromIndicators.  statusText is an Option because the
source variable starts as null; every return path of the source in fact
fills it in. -/
structure ServerStatus where
  isOffline : Bool
  statusText : Option String
  hasStartControl : Bool
  hasStopControl : Bool
  combinedTexts : List String
deriving DecidableEq

/-- offlineKeywords, from determineStatusFromIndicators in
src/unnamed/part_004. -/
def offlineKeywords : List String :=
  ["offline", "stopped", "stopping", "down", "idle", "not running",
   "power off", "start server"]

/-- onlineKeywords, from determineStatusFromIndicators in
src/unnamed/part_004. -/
def onlineKeywords : List String :=
  ["online", "running", "active", "started", "up", "powered on",
   "stop server"]

/-- determineStatusFromIndicators, from src/unnamed/part_004 lines
525 to 589, translated statement by statement.  The chain of mutating
if-blocks of the source is rendered as a cascade of pure stages over the
pair of the tentative isOffline flag (Option Bool, none standing for the
null of the source) and the tentative statusText. -/
def determineStatusFromIndicators (input : IndicatorInput) : ServerStatus :=
  let combined := uniqueStrings (input.statusCandidates ++ input.buttonTexts)
  let lowerCombined := combined.map toLowerStr
  let hasStartControl :=
    input.explicitStartButtons > 0 ||
      lowerCombined.any (fun text =>
        containsSubstr text "start" || containsSubstr text "power on" ||
          containsSubstr text "boot")
  let hasStopControl :=
    input.explicitStopButtons > 0 ||
      lowerCombined.any (fun text =>
        containsSubstr text "stop" || containsSubstr text "power off" ||
          containsSubstr text "shutdown")
  let offlineText := combined.find? (fun text =>
    offlineKeywords.any (fun keyword => containsSubstr (toLowerStr text) keyword))
  let onlineText := combined.find? (fun text =>
    onlineKeywords.any (fun keyword => containsSubstr (toLowerStr text) keyword))
  let stage1 : Option Bool × Option String :=
    if offlineText.isSome && onlineText.isNone then (some true, offlineText)
    else if onlineText.isSome && offlineText.isNone then (some false, onlineText)
    else (none, none)
  let stage2 : Option Bool × Option String :=
    if stage1.1.isNone then
      if hasStopControl && !hasStartControl then
        (some false, some (stage1.2.getD "Stop control visible"))
      else if hasStartControl && !hasStopControl then
        (some true, some (stage1.2.getD "Start control visible"))
      else if hasStartControl && hasStopControl then
        match onlineText with
        | some t => (some false, some t)
        | none =>
          match offlineText with
          | some t => (some true, some t)
          | none => (none, stage1.2)
      else (none, stage1.2)
    else stage1
  let stage3 : Option Bool × Option String :=
    if stage2.1.isNone then
      match onlineText with
      | some t => (some false, some t)
      | none =>
        match offlineText with
        | some t => (some true, some t)
        | none => (none, stage2.2)
    else stage2
  let final : Bool × Option String :=
    match stage3.1 with
    | some b => (b, stage3.2)
    | none => (false, some (stage3.2.getD "Status unknown - assuming online"))
  { isOffline := final.1
    statusText := final.2
    hasStartControl := hasStartControl
    hasStopControl := hasStopControl
    combinedTexts := combined }

/-
Outcome Race, from waitForPostSubmitOutcome in
src/scripts/falix-keepalive.js lines 443 to 497.
-/

/-- authPathPattern url models the test of the source regular expression
that matches a literal "/auth" followed by a slash or by the end of the
string: equivalently, url contains "/auth/" or ends with "/auth".  Used
both by waitForPostSubmitOutcome and by the reload check of login. -/
def authPathPattern (url : String) : Bool :=
  containsSubstr url "/auth/" || endsWithStr url "/auth"

/-- RaceWinner names the three observation channels whose race
waitForPostSubmitOutcome awaits: a navigation-completed event, the
polling predicate that the URL left the auth pattern, and the appearance
of an element matching the error-banner selector list. -/
inductive RaceWinner where
  | navigation
  | urlChange
  | errorBanner
deriving DecidableEq

/-- winnerReason maps a race channel to the type string the source
attaches to the resolved race value. -/
def winnerReason : RaceWinner → String
  | RaceWinner.navigation => "navigation"
  | RaceWinner.urlChange => "url-change"
  | RaceWinner.errorBanner => "error"

/-- SubmitOutcomeR models the plain result object of
waitForPostSubmitOutcome: success flag, reason string, optional details
(the source leaves details undefined on the paths that do not set it). -/
structure SubmitOutcomeR where
  success : Bool
  reason : String
  details : Option String
deriving DecidableEq

/-- waitForPostSubmitOutcome, from src/scripts/falix-keepalive.js lines
443 to 497.  The Promise.race is modelled by its resolved value: winner
is none when every channel timed out, otherwise the channel that won.
finalUrl is the page URL read after the race resolves.  bannerQuery
models the re-query of the error-banner selector performed when the
error channel wins: some t when the element is found with raw text t
(the source then trims it), none when the element is gone or the
evaluation fails (the source then substitutes the fixed fallback text).
The catch-all exception path of the source (reason "exception") is not
reachable in this model because the modelled reads do not throw. -/
def waitForPostSubmitOutcome (winner : Option RaceWinner) (finalUrl : String)
    (bannerQuery : Option String) : SubmitOutcomeR :=
  match winner with
  | none => { success := false, reason := "timeout", details := none }
  | some RaceWinner.errorBanner =>
    let errorText :=
      match bannerQuery with
      | some t => trimStr t
      | none => "Unknown error"
    { success := false, reason := "error-message", details := some errorText }
  | some w =>
    if !authPathPattern finalUrl then
      { success := true, reason := winnerReason w, details := none }
    else
      { success := false, reason := "still-on-auth", details := none }

/-
Login State Machine, from login and withRetry in
src/scripts/falix-keepalive.js.
-/

/-- JsError models the two classes of thrown values the retry logic
distinguishes: CloudflareChallengeError and every other Error. -/
inductive JsError where
  | challenge (msg : String)
  | other (msg : String)
deriving DecidableEq

/-- JsError.isChallenge models the instanceof CloudflareChallengeError
test. -/
def JsError.isChallenge : JsError → Bool
  | JsError.challenge _ => true
  | JsError.other _ => false

/-- AttemptResult describes what one iteration of the submit loop body
observes: submitLoginForm plus waitForPostSubmitOutcome either complete
with an outcome object carrying a success flag and reason, or throw. -/
inductive AttemptResult where
  | outcome (success : Bool) (reason : String)
  | thrown (e : JsError)

/-- LoopStep records the externally visible events of the submit loop:
a submission attempt with its 1-based number, a waited backoff delay in
milliseconds, and a page reload. -/
inductive LoopStep where
  | submitted (attempt : Nat)
  | backoff (ms : Nat)
  | reloaded
deriving DecidableEq

/-- reloadIfOnAuth url models the conditional reload of login: the page
is reloaded exactly when the current URL still matches the auth
pattern. -/
def reloadIfOnAuth (url : String) : List LoopStep :=
  if authPathPattern url then [LoopStep.reloaded] else []

/-- submitLoopGo models the while loop of login, lines 728 to 781 of
src/scripts/falix-keepalive.js.  behavior gives the result of the loop
body at each 1-based attempt number; urlAfter gives the URL read back
after the backoff of a failed attempt; maxA is maxSubmitAttempts; done
counts completed attempts; remaining is maxA minus done, the loop guard
fuel.  The returned list is the event trace; the returned value is ok on
success and otherwise carries the error the source throws (the loop
rethrows the last caught error when the cap is already reached, and the
code after the loop throws the exhaustion error when the loop ends with
no success).  Note that the catch block of the source retries every
thrown error while attempts remain, with no special case for the
challenge error. -/
def submitLoopGo (behavior : Nat → AttemptResult) (urlAfter : Nat → String)
    (maxA : Nat) : Nat → Nat → List LoopStep × Except JsError Unit
  | _, 0 =>
    ([], Except.error (JsError.other
      ("Failed to login after " ++ toString maxA ++ " submit attempts")))
  | done, remaining + 1 =>
    let attempt := done + 1
    match behavior attempt with
    | AttemptResult.outcome true _ => ([LoopStep.submitted attempt], Except.ok ())
    | AttemptResult.outcome false _ =>
      if remaining = 0 then
        ([LoopStep.submitted attempt], Except.error (JsError.other
          ("Failed to login after " ++ toString maxA ++ " submit attempts")))
      else
        let rest := submitLoopGo behavior urlAfter maxA attempt remaining
        (LoopStep.submitted attempt :: LoopStep.backoff (1000 * attempt) ::
          (reloadIfOnAuth (urlAfter attempt) ++ rest.1), rest.2)
    | AttemptResult.thrown e =>
      if remaining = 0 then
        ([LoopStep.submitted attempt], Except.error e)
      else
        let rest := submitLoopGo behavior urlAfter maxA attempt remaining
        (LoopStep.submitted attempt :: LoopStep.backoff (1000 * attempt) ::
          rest.1, rest.2)

/-- maxSubmitAttempts, from login in src/scripts/falix-keepalive.js. -/
def maxSubmitAttempts : Nat := 3

/-- loginSubmitLoop runs the submit loop of login with the cap of 3 the
source configures. -/
def loginSubmitLoop (behavior : Nat → AttemptResult) (urlAfter : Nat → String) :
    List LoopStep × Except JsError Unit :=
  submitLoopGo behavior urlAfter maxSubmitAttempts 0 maxSubmitAttempts

/-- numSubmitted counts the submission attempts recorded in a trace. -/
def numSubmitted (steps : List LoopStep) : Nat :=
  steps.countP (fun s =>
    match s with
    | LoopStep.submitted _ => true
    | _ => false)

/-- withRetryRun models the loop of withRetry, lines 58 to 77 of
src/scripts/falix-keepalive.js: fn i is the result of the attempt with
loop index i; an error that is a CloudflareChallengeError is rethrown at
once; any other error is retried while fuel (retries minus i) remains
and rethrown when it does not.  The second component counts how many
times fn was invoked. -/
def withRetryRun (fn : Nat → Except JsError α) : Nat → Nat → Except JsError α × Nat
  | i, fuel =>
    match fn i with
    | Except.ok a => (Except.ok a, 1)
    | Except.error e =>
      if e.isChallenge then (Except.error e, 1)
      else
        match fuel with
        | 0 => (Except.error e, 1)
        | f + 1 =>
          let rest := withRetryRun fn (i + 1) f
          (rest.1, rest.2 + 1)

/-- withRetry, from src/scripts/falix-keepalive.js lines 58 to 77,
returning the final result together with the number of invocations of
fn. -/
def withRetry (fn : Nat → Except JsError α) (retries : Nat) :
    Except JsError α × Nat :=
  withRetryRun fn 0 retries

/-- loginRun models login, lines 653 to 805: the whole login body is
wrapped in withRetry with retries set to 3; within one outer attempt the
body runs the submit loop and the surrounding try block rethrows
whatever error the loop produced (the challenge branch of the catch at
line 788 rethrows unchanged, and the general branch rethrows after
diagnostics).  behavior and urlAfter take the 0-based outer loop index
first.  The navigation and form-discovery phase before the submit loop
is taken to complete, which is the scenario the claims about the submit
loop quantify over. -/
def loginRun (behavior : Nat → Nat → AttemptResult)
    (urlAfter : Nat → Nat → String) : Except JsError Unit × Nat :=
  withRetry (fun outer => (loginSubmitLoop (behavior outer) (urlAfter outer)).2) 3

/-
Selector Resolver, from findElementInFrames in
src/scripts/falix-keepalive.js lines 357 to 383.
-/

/-- QueryResult models one evaluation of frame.$(selector): the query
yields an element, yields null, or throws (for instance on a cross
origin frame). -/
inductive QueryResult where
  | found
  | notFound
  | errored
deriving DecidableEq

/-- isFound tests a query result for an element. -/
def isFound : QueryResult → Bool
  | QueryResult.found => true
  | _ => false

/-- findInOneFrame models the inner loop of findElementInFrames over one
frame: selectors are tried in list order; a query that throws is caught
and treated like a miss; the first selector that yields an element is
returned. -/
def findInOneFrame (query : F → String → QueryResult) (f : F) :
    List String → Option String
  | [] => none
  | s :: rest =>
    match query f s with
    | QueryResult.found => some s
    | _ => findInOneFrame query f rest

/-- findInFramesList models the second loop of findElementInFrames: each
frame in discovery order, selectors in list order within the frame. -/
def findInFramesList (query : F → String → QueryResult) :
    List F → List String → Option (F × String)
  | [], _ => none
  | f :: rest, selectors =>
    match findInOneFrame query f selectors with
    | some s => some (f, s)
    | none => findInFramesList query rest selectors

/-- findElementInFrames, from src/scripts/falix-keepalive.js lines 357
to 383: the main page is searched first over all selectors, then every
frame of the frames list; the first hit is returned as a frame and
selector pair, and none is returned when nothing matches. -/
def findElementInFrames (query : F → String → QueryResult) (page : F)
    (frames : List F) (selectors : List String) : Option (F × String) :=
  match findInOneFrame query page selectors with
  | some s => some (page, s)
  | none => findInFramesList query frames selectors

/-- searchOrder is the specification-side flattening of the search: the
root document first, then each frame in discovery order, each paired
with the candidate selectors in declared order. -/
def searchOrder (page : F) (frames : List F) (selectors : List String) :
    List (F × String) :=
  (page :: frames).flatMap (fun f => selectors.map (fun s => (f, s)))

/-
Request interception, from shouldBlockRequest in
src/scripts/falix-keepalive.js lines 147 to 169.
-/

/-- blockedDomainLiterals lists the literal substrings of the fixed
case-insensitive regular expressions in BLOCKED_DOMAIN_PATTERNS (every
pattern is a literal with escaped dots). -/
def blockedDomainLiterals : List String :=
  ["snigelweb.com", "prebid", "onetag", "rubiconproject.com", "adnxs.com",
   "pubmatic.com", "lijit.com", "triplelift.com", "doubleclick.net",
   "googlesyndication.com", "googletagmanager.com", "googletagservices.com",
   "google-analytics.com"]

/-- matchesBlockedPattern s models pattern.test(s) over the patterns of
BLOCKED_DOMAIN_PATTERNS: a case-insensitive substring match of one of
the literals. -/
def matchesBlockedPattern (s : String) : Bool :=
  blockedDomainLiterals.any (fun pat => containsSubstr (toLowerStr s) pat)

/-- isDataOrBlobUrl models the two anchored case-insensitive tests of
the source for data: and blob: URLs. -/
def isDataOrBlobUrl (url : String) : Bool :=
  startsWithStr (toLowerStr url) "data:" || startsWithStr (toLowerStr url) "blob:"

/-- shouldBlockRequest, from src/scripts/falix-keepalive.js lines 147 to
169.  The hostname argument is the string the caller computed; the empty
string stands for both the null hostname of an unparsable URL and the
empty hostname, which are falsy in the source guard. -/
def shouldBlockRequest (hostname : String) (url : String)
    (allowedHosts : List String) : Bool :=
  if hostname = "" then false
  else if allowedHosts.contains hostname then false
  else if endsWithStr hostname ".falixnodes.net" then false
  else if isDataOrBlobUrl url then false
  else if matchesBlockedPattern hostname || matchesBlockedPattern url then true
  else false

/-
Timer keepalive URL, from performTimerKeepalive in
src/scripts/falix-keepalive.js lines 1046 to 1051.
-/

/-- TimerConfig holds the two configuration values the timer URL is
built from. -/
structure TimerConfig where
  FALIX_BASE_URL : String
  FALIX_TIMER_ID : String

/-- performTimerKeepaliveUrl, from line 1047 of
src/scripts/falix-keepalive.js: the URL handed to the navigation is the
template literal interpolating the two configuration values. -/
def performTimerKeepaliveUrl (cfg : TimerConfig) : String :=
  cfg.FALIX_BASE_URL ++ "/timer?id=" ++ cfg.FALIX_TIMER_ID

/-
Theorems.
-/

/-- C3: determineStatusFromIndicators maps the four fixed classifier
inputs to the expected determinations: an Offline candidate with a Start
button is offline; a Running candidate with a Stop button is online;
Start and Stop buttons with no candidate text fall through to the online
default; and no signal at all defaults to online. -/
theorem classifier_fixed_cases :
    (determineStatusFromIndicators
      { statusCandidates := ["Offline"], buttonTexts := ["Start"] }).isOffline
        = true ∧
    (determineStatusFromIndicators
      { statusCandidates := ["Running"], buttonTexts := ["Stop"] }).isOffline
        = false ∧
    (determineStatusFromIndicators
      { statusCandidates := [], buttonTexts := ["Start", "Stop"] }).isOffline
        = false ∧
    (determineStatusFromIndicators
      { statusCandidates := [], buttonTexts := [] }).isOffline = false := by
  refine ⟨by decide, by decide, by decide, by decide⟩

/-- C8: determineStatusFromIndicators is a pure function of its four
inputs, so two runs on identical inputs return identical outputs in
every field.  The embedding is faithful on this point because the source
function reads nothing but its destructured argument and the pure
helpers uniqueStrings and normalizeWhitespace. -/
theorem classifier_deterministic (a b : IndicatorInput) (h : a = b) :
    determineStatusFromIndicators a = determineStatusFromIndicators b := by
  rw [h]

/-- C8 witness: the determinism theorem applied at a concrete input. -/
theorem classifier_deterministic_witness :
    ({ statusCandidates := ["Offline"], buttonTexts := ["Start"] } : IndicatorInput)
        = { statusCandidates := ["Offline"], buttonTexts := ["Start"] } ∧
      determineStatusFromIndicators
          { statusCandidates := ["Offline"], buttonTexts := ["Start"] }
        = determineStatusFromIndicators
          { statusCandidates := ["Offline"], buttonTexts := ["Start"] } :=
  ⟨rfl, classifier_deterministic _ _ rfl⟩

/-- C2 (amended): when the final URL still matches the auth pattern and
the url-change channel cannot have won (its predicate requires a URL
outside the auth pattern at some observation point), the race result is
never Success: it is a failure with reason timeout, still-on-auth, or,
when the error-banner channel won, error-message. -/
theorem outcome_race_on_auth_never_success (winner : Option RaceWinner)
    (finalUrl : String) (bannerQuery : Option String)
    (hauth : authPathPattern finalUrl = true)
    (hwin : winner ≠ some RaceWinner.urlChange) :
    (waitForPostSubmitOutcome winner finalUrl bannerQuery).success = false ∧
      ((waitForPostSubmitOutcome winner finalUrl bannerQuery).reason = "timeout" ∨
       (waitForPostSubmitOutcome winner finalUrl bannerQuery).reason = "still-on-auth" ∨
       (waitForPostSubmitOutcome winner finalUrl bannerQuery).reason = "error-message") := by
  match winner with
  | none => exact ⟨rfl, Or.inl rfl⟩
  | some RaceWinner.errorBanner => exact ⟨rfl, Or.inr (Or.inr rfl)⟩
  | some RaceWinner.urlChange => exact absurd rfl hwin
  | some RaceWinner.navigation =>
    simp only [waitForPostSubmitOutcome, hauth]
    exact ⟨rfl, Or.inr (Or.inl rfl)⟩

/-- C2 witness: the amended race theorem applied at the timeout case on
the login URL. -/
theorem outcome_race_on_auth_never_success_witness :
    authPathPattern "https://client.falixnodes.net/auth/login" = true ∧
      (waitForPostSubmitOutcome none "https://client.falixnodes.net/auth/login"
        none).success = false ∧
      ((waitForPostSubmitOutcome none "https://client.falixnodes.net/auth/login"
          none).reason = "timeout" ∨
       (waitForPostSubmitOutcome none "https://client.falixnodes.net/auth/login"
          none).reason = "still-on-auth" ∨
       (waitForPostSubmitOutcome none "https://client.falixnodes.net/auth/login"
          none).reason = "error-message") :=
  ⟨by decide,
   outcome_race_on_auth_never_success none
     "https://client.falixnodes.net/auth/login" none (by decide)
     (by simp)⟩

/-- C2 counterexample: with the URL on the auth pattern throughout, the
error-banner channel can win (an error banner appears while the page
stays on the login route), and the result reason is then error-message,
refuting the claim that the reason is always timeout or still-on-auth;
the non-Success part of the claim does hold. -/
theorem outcome_race_on_auth_error_reason_counterexample :
    authPathPattern "https://client.falixnodes.net/auth/login" = true ∧
      (waitForPostSubmitOutcome (some RaceWinner.errorBanner)
          "https://client.falixnodes.net/auth/login"
          (some "Invalid email or password.")).success = false ∧
      (waitForPostSubmitOutcome (some RaceWinner.errorBanner)
          "https://client.falixnodes.net/auth/login"
          (some "Invalid email or password.")).reason = "error-message" ∧
      (waitForPostSubmitOutcome (some RaceWinner.errorBanner)
          "https://client.falixnodes.net/auth/login"
          (some "Invalid email or password.")).reason ≠ "timeout" ∧
      (waitForPostSubmitOutcome (some RaceWinner.errorBanner)
          "https://client.falixnodes.net/auth/login"
          (some "Invalid email or password.")).reason ≠ "still-on-auth" := by
  refine ⟨by decide, by decide, by decide, by decide, by decide⟩

/-- C6 (amended): when the error-banner channel wins the race the result
is a failure with reason error-message, and the details field carries
the trimmed text of the re-queried banner element, or the fixed fallback
text when the banner can no longer be queried; the trimmed text may be
empty, so the details are not always non-empty. -/
theorem outcome_race_error_banner_detail (finalUrl : String)
    (bannerQuery : Option String) :
    waitForPostSubmitOutcome (some RaceWinner.errorBanner) finalUrl bannerQuery
      = { success := false, reason := "error-message",
          details := some (match bannerQuery with
            | some t => trimStr t
            | none => "Unknown error") } := by
  cases bannerQuery <;> rfl

/-- C6 counterexample: a banner whose text is whitespace only is trimmed
to the empty string, so the details field is empty, refuting the claim
that the detail is always non-empty. -/
theorem outcome_race_error_banner_empty_detail_counterexample :
    (waitForPostSubmitOutcome (some RaceWinner.errorBanner)
        "https://client.falixnodes.net/auth/login" (some "   ")).reason
      = "error-message" ∧
    (waitForPostSubmitOutcome (some RaceWinner.errorBanner)
        "https://client.falixnodes.net/auth/login" (some "   ")).details
      = some "" ∧
    String.length "" = 0 := by
  refine ⟨by decide, by decide, rfl⟩

/-- C7: when a navigation or url-change channel wins the race and the
final URL no longer matches the auth pattern, the result is Success and
its reason records the winning channel. -/
theorem outcome_race_left_auth_success (w : RaceWinner) (finalUrl : String)
    (bannerQuery : Option String)
    (hw : w = RaceWinner.navigation ∨ w = RaceWinner.urlChange)
    (hauth : authPathPattern finalUrl = false) :
    waitForPostSubmitOutcome (some w) finalUrl bannerQuery
      = { success := true, reason := winnerReason w, details := none } := by
  rcases hw with h | h <;> subst h <;>
    simp [waitForPostSubmitOutcome, hauth, winnerReason]

/-- C7 witness: the success theorem applied to a navigation win that
lands on the dashboard URL. -/
theorem outcome_race_left_auth_success_witness :
    (RaceWinner.navigation = RaceWinner.navigation ∨
      RaceWinner.navigation = RaceWinner.urlChange) ∧
    authPathPattern "https://client.falixnodes.net/dashboard" = false ∧
    waitForPostSubmitOutcome (some RaceWinner.navigation)
        "https://client.falixnodes.net/dashboard" none
      = { success := true, reason := winnerReason RaceWinner.navigation,
          details := none } :=
  ⟨Or.inl rfl, by decide,
   outcome_race_left_auth_success RaceWinner.navigation
     "https://client.falixnodes.net/dashboard" none (Or.inl rfl) (by decide)⟩

/-- numSubmitted of a reload marker list is zero. -/
theorem numSubmitted_reloadIfOnAuth (url : String) :
    numSubmitted (reloadIfOnAuth url) = 0 := by
  unfold reloadIfOnAuth
  split <;> rfl

/-- numSubmitted distributes over trace concatenation. -/
theorem numSubmitted_append (a b : List LoopStep) :
    numSubmitted (a ++ b) = numSubmitted a + numSubmitted b := by
  unfold numSubmitted
  exact List.countP_append _ _ _

/-- numSubmitted of an empty trace is zero. -/
theorem numSubmitted_nil : numSubmitted [] = 0 := rfl

/-- numSubmitted counts a leading submission marker. -/
theorem numSubmitted_cons_submitted (k : Nat) (l : List LoopStep) :
    numSubmitted (LoopStep.submitted k :: l) = numSubmitted l + 1 := by
  simp [numSubmitted, List.countP_cons]

/-- numSubmitted ignores a leading backoff marker. -/
theorem numSubmitted_cons_backoff (m : Nat) (l : List LoopStep) :
    numSubmitted (LoopStep.backoff m :: l) = numSubmitted l := by
  simp [numSubmitted, List.countP_cons]

/-- Each run of the submit loop performs at most one submission per unit
of remaining fuel. -/
theorem numSubmitted_submitLoopGo_le (behavior : Nat → AttemptResult)
    (urlAfter : Nat → String) (maxA : Nat) :
    ∀ r done, numSubmitted (submitLoopGo behavior urlAfter maxA done r).1 ≤ r := by
  intro r
  induction r with
  | zero => intro done; simp [submitLoopGo, numSubmitted]
  | succ n ih =>
    intro done
    cases hb : behavior (done + 1) with
    | outcome success reason =>
      cases success with
      | true =>
        simp [submitLoopGo, hb, numSubmitted, List.countP_cons]
      | false =>
        by_cases hn : n = 0
        · subst hn
          simp [submitLoopGo, hb, numSubmitted, List.countP_cons]
        · have h1 := ih (done + 1)
          simp only [submitLoopGo, hb]
          rw [if_neg hn]
          rw [numSubmitted_cons_submitted, numSubmitted_cons_backoff,
            numSubmitted_append, numSubmitted_reloadIfOnAuth]
          omega
    | thrown e =>
      by_cases hn : n = 0
      · subst hn
        simp [submitLoopGo, hb, numSubmitted, List.countP_cons]
      · have h1 := ih (done + 1)
        simp only [submitLoopGo, hb]
        rw [if_neg hn]
        rw [numSubmitted_cons_submitted, numSubmitted_cons_backoff]
        omega

/-- C4: in the inner submission loop of login, submit attempts are
capped at maxSubmitAttempts = 3 for every behavior; and when every
attempt resolves to a non-success outcome, the loop performs exactly the
three attempts, waits 1000 times the attempt number between attempts,
reloads exactly when the URL observed after the wait still matches the
auth route, and ends by throwing the exhaustion error rather than
looping further. -/
theorem submit_loop_cap_backoff_reload :
    (∀ (behavior : Nat → AttemptResult) (urlAfter : Nat → String),
      numSubmitted (loginSubmitLoop behavior urlAfter).1 ≤ maxSubmitAttempts) ∧
    (∀ (reasons : Nat → String) (urlAfter : Nat → String),
      loginSubmitLoop (fun k => AttemptResult.outcome false (reasons k)) urlAfter
        = (LoopStep.submitted 1 :: LoopStep.backoff 1000 ::
            (reloadIfOnAuth (urlAfter 1) ++
              (LoopStep.submitted 2 :: LoopStep.backoff 2000 ::
                (reloadIfOnAuth (urlAfter 2) ++ [LoopStep.submitted 3]))),
           Except.error (JsError.other
             "Failed to login after 3 submit attempts"))) := by
  constructor
  · intro behavior urlAfter
    exact numSubmitted_submitLoopGo_le behavior urlAfter maxSubmitAttempts
      maxSubmitAttempts 0
  · intro reasons urlAfter
    rfl

/-- C1 (amended): when the submission step throws the challenge error at
every attempt, the inner submit loop retries it like any other thrown
error, so the run performs exactly three submission attempts (the inner
cap) with backoffs of 1000 and 2000 milliseconds between them and then
terminates with the challenge error; the outer withRetry wrapper then
rethrows the challenge error at once, invoking the login body exactly
once regardless of its configured retry cap. -/
theorem challenge_terminal_after_inner_cap (msg : String)
    (urlAfter : Nat → String) (urlOuter : Nat → Nat → String) :
    loginSubmitLoop (fun _ => AttemptResult.thrown (JsError.challenge msg))
        urlAfter
      = ([LoopStep.submitted 1, LoopStep.backoff 1000, LoopStep.submitted 2,
          LoopStep.backoff 2000, LoopStep.submitted 3],
         Except.error (JsError.challenge msg)) ∧
    loginRun (fun _ _ => AttemptResult.thrown (JsError.challenge msg)) urlOuter
      = (Except.error (JsError.challenge msg), 1) := by
  exact ⟨rfl, rfl⟩

/-- C1 counterexample: with a submission that always throws the
challenge error, the login run performs three submission attempts, not
one, before terminating with the challenge error, refuting the claim of
exactly one submission attempt; the terminal challenge failure and the
absence of any outer retry do hold. -/
theorem challenge_three_attempts_counterexample :
    numSubmitted (loginSubmitLoop
        (fun _ => AttemptResult.thrown (JsError.challenge "Challenge detected"))
        (fun _ => "https://client.falixnodes.net/auth/login")).1 = 3 ∧
    (3 : Nat) ≠ 1 ∧
    (loginSubmitLoop
        (fun _ => AttemptResult.thrown (JsError.challenge "Challenge detected"))
        (fun _ => "https://client.falixnodes.net/auth/login")).2
      = Except.error (JsError.challenge "Challenge detected") ∧
    loginRun (fun _ _ => AttemptResult.thrown (JsError.challenge "Challenge detected"))
        (fun _ _ => "https://client.falixnodes.net/auth/login")
      = (Except.error (JsError.challenge "Challenge detected"), 1) := by
  refine ⟨rfl, by decide, rfl, rfl⟩

/-- find? over an appended list inspects the left part first. -/
theorem find?_append_split (p : α → Bool) (l1 l2 : List α) :
    (l1 ++ l2).find? p
      = match l1.find? p with
        | some x => some x
        | none => l2.find? p := by
  induction l1 with
  | nil => rfl
  | cons a l ih =>
    simp only [List.cons_append, List.find?]
    cases p a <;> simp [ih]

/-- findInOneFrame is the first selector of the list whose query on the
frame yields an element. -/
theorem findInOneFrame_eq_find? (query : F → String → QueryResult) (f : F)
    (ss : List String) :
    findInOneFrame query f ss = ss.find? (fun s => isFound (query f s)) := by
  induction ss with
  | nil => rfl
  | cons s rest ih =>
    simp only [findInOneFrame, List.find?]
    cases h : query f s <;> simp [isFound, h, ih]

/-- Searching the selector list paired with a fixed frame is searching
the selector list. -/
theorem find?_map_pair (query : F → String → QueryResult) (f : F)
    (ss : List String) :
    (ss.map (fun s => (f, s))).find? (fun p => isFound (query p.1 p.2))
      = (ss.find? (fun s => isFound (query f s))).map (fun s => (f, s)) := by
  induction ss with
  | nil => rfl
  | cons s rest ih =>
    simp only [List.map, List.find?]
    cases h : isFound (query f s) <;> simp [h, ih]

/-- findInFramesList is the first frame and selector pair, frames outer
and selectors inner, whose query yields an element. -/
theorem findInFramesList_eq_find? (query : F → String → QueryResult)
    (frames : List F) (ss : List String) :
    findInFramesList query frames ss
      = (frames.flatMap (fun fr => ss.map (fun s => (fr, s)))).find?
          (fun p => isFound (query p.1 p.2)) := by
  induction frames with
  | nil => rfl
  | cons f rest ih =>
    have hflat : (f :: rest).flatMap (fun fr => ss.map (fun s => (fr, s)))
        = ss.map (fun s => (f, s))
            ++ rest.flatMap (fun fr => ss.map (fun s => (fr, s))) := rfl
    rw [hflat, find?_append_split, find?_map_pair query f ss]
    simp only [findInFramesList, ← findInOneFrame_eq_find? query f ss]
    cases findInOneFrame query f ss <;> simp [ih]

/-- C5: findElementInFrames returns exactly the first frame and selector
pair, in the order root document first then frames in discovery order
with the candidate selectors in declared order inside each, whose query
yields an element; query results that error are treated as misses by
the predicate, and when no pair yields an element the function returns
none (totality of the Lean function: it cannot throw). -/
theorem selector_resolver_first_match (query : F → String → QueryResult)
    (page : F) (frames : List F) (selectors : List String) :
    findElementInFrames query page frames selectors
      = (searchOrder page frames selectors).find?
          (fun p => isFound (query p.1 p.2)) := by
  have hflat : searchOrder page frames selectors
      = selectors.map (fun s => (page, s))
          ++ frames.flatMap (fun fr => selectors.map (fun s => (fr, s))) := rfl
  rw [hflat, find?_append_split, find?_map_pair query page selectors]
  simp only [findElementInFrames, ← findInOneFrame_eq_find? query page selectors,
    ← findInFramesList_eq_find? query frames selectors]
  cases findInOneFrame query page selectors <;> simp

/-- C9: the timer keepalive navigation URL is exactly the template
interpolating the configured base URL and timer id, with no additional
path segment or query parameter: the construction adds exactly one
question mark and no ampersand beyond those already present in the two
configured values. -/
theorem timer_url_template (b i : String) :
    performTimerKeepaliveUrl { FALIX_BASE_URL := b, FALIX_TIMER_ID := i }
        = b ++ "/timer?id=" ++ i ∧
    countChar (performTimerKeepaliveUrl
        { FALIX_BASE_URL := b, FALIX_TIMER_ID := i }) '?'
      = countChar b '?' + countChar i '?' + 1 ∧
    countChar (performTimerKeepaliveUrl
        { FALIX_BASE_URL := b, FALIX_TIMER_ID := i }) '&'
      = countChar b '&' + countChar i '&' := by
  have h : (performTimerKeepaliveUrl
      { FALIX_BASE_URL := b, FALIX_TIMER_ID := i }).toList
      = (b.toList ++ "/timer?id=".toList) ++ i.toList := rfl
  refine ⟨rfl, ?_, ?_⟩
  · unfold countChar
    rw [h, List.count_append, List.count_append]
    have h1 : "/timer?id=".toList.count '?' = 1 := rfl
    omega
  · unfold countChar
    rw [h, List.count_append, List.count_append]
    have h1 : "/timer?id=".toList.count '&' = 0 := rfl
    omega

/-- C10: shouldBlockRequest blocks exactly the requests that fail every
allow condition and match a blocked pattern: a request is blocked iff
its hostname is non-empty, is not in the allowed-hosts set, does not end
with .falixnodes.net, the URL is not a data: or blob: URL, and the
hostname or the full URL matches one of the blocked patterns.  In
particular an allowed or falixnodes host, and any data: or blob: URL,
is never blocked even when it matches a blocked pattern. -/
theorem shouldBlockRequest_characterization (hostname url : String)
    (allowedHosts : List String) :
    shouldBlockRequest hostname url allowedHosts = true ↔
      (hostname ≠ "" ∧ allowedHosts.contains hostname = false ∧
        endsWithStr hostname ".falixnodes.net" = false ∧
        isDataOrBlobUrl url = false ∧
        (matchesBlockedPattern hostname || matchesBlockedPattern url) = true) := by
  unfold shouldBlockRequest
  split_ifs with h1 h2 h3 h4 h5 <;> simp_all

end Falix
